import Mathlib

/-!
Verification of the SynGen-ai query orchestration and validation pipeline.

Shallow embedding of the core pipeline code:
  * `Backend/services/ai/unified_query_service.py` (the primary pipeline:
    `MultiLevelSQLValidator`, `EnhancedRAGSystem`, `IntentClassifier`,
    `SmartSQLGenerator`, `UnifiedQueryService`), and
  * `Backend/services/ai/agentic_team_system.py` (the fallback pipeline:
    `RouterAgent`, `SQLGeneratorAgent`, `SQLValidatorAgent`,
    `SQLExecutorAgent`, `RAGRetrieverAgent`, `AgenticTeamSystem`).

External collaborators (the relational store, the document store and the
model-invocation service) are modelled as explicit oracle parameters: the
model-invocation service returns an arbitrary string, the stores return
arbitrary row / document lists.  Python floats are modelled as exact
rationals; Python strings as Lean `String`.
-/

namespace SynGen

/-! ### Python string primitives used by the pipeline -/

/-- Lower-cased character list of a string (Python `str.lower`, ASCII part). -/
def lcs (s : String) : List Char := s.toList.map Char.toLower

/-- Python `str.lower` as a string. -/
def pyLower (s : String) : String := ⟨lcs s⟩

/-- Does `n` occur as the sub-list of `h` starting at index `i`? -/
def matchAt (n h : List Char) (i : Nat) : Bool := n.isPrefixOf (h.drop i)

/-- Substring containment on raw character lists (Python `needle in hay`). -/
def containsSub (needle hay : List Char) : Bool :=
  (List.range (hay.length + 1)).any (fun i => matchAt needle hay i)

/-- Case-insensitive substring containment: `needle` (given lower-case)
occurs in `hay` ignoring case.  Models Python's
`needle in hay.lower()` / `re.search(needle, hay, re.IGNORECASE)` for a
literal pattern. -/
def containsCI (needle hay : String) : Bool := containsSub needle.toList (lcs hay)

/-- A regex word character (`\w` over ASCII input): letter, digit or `_`. -/
def isWordChar (c : Char) : Bool := c.isAlphanum || c == '_'

/-- `\b kw \b` matches `h` at index `i` (both lists lower-case). -/
def wordMatchAt (kw h : List Char) (i : Nat) : Bool :=
  matchAt kw h i
    && (decide (i = 0) || !isWordChar (h.getD (i - 1) ' '))
    && (decide (h.length ≤ i + kw.length) || !isWordChar (h.getD (i + kw.length) ' '))

/-- Case-insensitive whole-word search: `re.search(r'\b kw \b', s, re.IGNORECASE)`
for a literal keyword `kw` (given lower-case). -/
def containsWord (kw : String) (s : String) : Bool :=
  (List.range (lcs s).length).any (fun i => wordMatchAt kw.toList (lcs s) i)

/-- Python `str.strip()` (whitespace trim at both ends). -/
def pyStrip (s : String) : String :=
  ⟨(s.toList.dropWhile Char.isWhitespace).reverse.dropWhile Char.isWhitespace |>.reverse⟩

/-- Python `str.rstrip(';')`. -/
def pyRstripSemi (s : String) : String :=
  ⟨(s.toList.reverse.dropWhile (fun c => c == ';')).reverse⟩

/-- Number of occurrences of the character `c` in `s` (Python `s.count(c)`). -/
def countChar (s : String) (c : Char) : Nat := s.toList.count c

/-- `sql.strip().upper().startswith('SELECT')`. -/
def startsWithSelect (sql : String) : Bool :=
  matchAt "select".toList (lcs (pyStrip sql)) 0

/-- `response.startswith('{')`. -/
def startsWithBrace (s : String) : Bool :=
  match s.toList with
  | [] => false
  | c :: _ => c == '\x7b'

/-! ### The forbidden-keyword and injection patterns of both validators

`MultiLevelSQLValidator.forbidden_patterns` and
`SQLValidatorAgent.forbidden_patterns` are the same compiled regex
`\b(DROP|DELETE|UPDATE|INSERT|ALTER|TRUNCATE|CREATE|GRANT|REVOKE)\b`
with `re.IGNORECASE`. -/

/-- The mutating-statement keywords of the forbidden regex, lower-case. -/
def forbiddenKeywords : List String :=
  ["drop", "delete", "update", "insert", "alter", "truncate", "create", "grant", "revoke"]

/-- `self.forbidden_patterns.search(sql)` is a match. -/
def forbiddenSearch (sql : String) : Bool :=
  forbiddenKeywords.any (fun kw => containsWord kw sql)

/-- `re.search(r';\s*KW', sql, re.IGNORECASE)`: a semicolon, then
whitespace, then the keyword. -/
def semiThenKw (kw : String) (sql : String) : Bool :=
  (List.range (lcs sql).length).any (fun i =>
    decide ((lcs sql).getD i ' ' = ';')
      && (List.range ((lcs sql).length + 1)).any (fun j =>
          decide (i < j)
            && (((lcs sql).drop (i + 1)).take (j - i - 1)).all Char.isWhitespace
            && matchAt kw.toList (lcs sql) j))

/-- `re.search(r'A.*B', sql, re.IGNORECASE)` where `.` does not cross a
newline: `a` at `i`, `b` at `j ≥ i + |a|`, no `'\n'` strictly between. -/
def kwDotStarKw (a b : String) (sql : String) : Bool :=
  (List.range (lcs sql).length).any (fun i =>
    matchAt a.toList (lcs sql) i
      && (List.range ((lcs sql).length + 1)).any (fun j =>
          decide (i + a.length ≤ j)
            && (((lcs sql).drop (i + a.length)).take (j - (i + a.length))).all (fun c => !(c == '\n'))
            && matchAt b.toList (lcs sql) j))

/-- `re.search(r'--.*\n', sql)`: `--` with a newline somewhere after it. -/
def dashDashComment (sql : String) : Bool := kwDotStarKw "--" "\n" sql

/-- The six injection patterns of `validate_basic` / `SQLValidatorAgent.execute`,
paired with the literal pattern text used in the produced error message. -/
def injectionPatterns : List (String × (String → Bool)) :=
  [(";\\s*DROP", semiThenKw "drop"),
   (";\\s*DELETE", semiThenKw "delete"),
   ("UNION.*SELECT", kwDotStarKw "union" "select"),
   ("--.*\\n", dashDashComment),
   ("/\\*.*\\*/", kwDotStarKw "/*" "*/"),
   ("xp_cmdshell", containsCI "xp_cmdshell")]

/-- Errors contributed by the injection-pattern scan, in scan order. -/
def injectionErrors (sql : String) : List String :=
  injectionPatterns.filterMap (fun p =>
    if p.2 sql then some ("Potential SQL injection pattern detected: " ++ p.1) else none)

/-! ### `ValidationResult` and `MultiLevelSQLValidator.validate_basic` -/

/-- `ValidationResult` dataclass of `unified_query_service.py`. -/
structure ValidationResult where
  is_valid : Bool
  confidence : ℚ
  errors : List String
  warnings : List String
  suggested_fix : Option String := none
  cost_estimate : Option ℚ := none
  deriving Repr, DecidableEq

/-- `MultiLevelSQLValidator.validate_basic` (unified_query_service.py,
lines 109-140).  Note: the unbalanced-parentheses finding is appended to
`errors`, and the `warnings` list stays empty. -/
def validateBasic (sql : String) : ValidationResult :=
  let errors :=
    (if forbiddenSearch sql then
       ["Write operations are forbidden. Only SELECT queries allowed."] else [])
    ++ injectionErrors sql
    ++ (if !startsWithSelect sql then ["Query must start with SELECT"] else [])
    ++ (if countChar sql '(' ≠ countChar sql ')' then ["Unmatched parentheses in query"] else [])
  { is_valid := errors.isEmpty
    confidence := if errors.isEmpty then 4/5 else 1/5
    errors := errors
    warnings := [] }

/-! ### `MultiLevelSQLValidator.validate_with_ai` and the critique-fix loop

`validate_with_ai` builds a `ValidationResult` entirely from the text the
external model-invocation service returns (`call_model` never raises: it
catches every exception and returns an error string).  Any combination of
`is_valid`/`confidence`/`errors`/`warnings`/`cost_estimate` is reachable
from a suitable model response, so the whole function is modelled at its
boundary as an oracle `aiV : String → ValidationResult`.  Likewise the fix
step of the critique loop (`call_model` on the critique prompt followed by
the markdown-fence clean-up) is an oracle
`fixer : String → List String → String` from the current query and error
list to the cleaned candidate. -/

/-- The invalid `ValidationResult` built after the critique loop ends
without reaching an error-free state (unified_query_service.py, lines
260-267). `sql0` is the original query passed to `validate_with_critique`. -/
def critiqueFailResult (sql0 current : String) (maxAttempts : Nat)
    (allErrs allWarns : List String) : ValidationResult :=
  { is_valid := false
    confidence := 3/10
    errors := allErrs
    warnings := allWarns ++ ["Failed to fix after " ++ toString maxAttempts ++ " attempts"]
    suggested_fix := if current ≠ sql0 then some current else none }

/-- The valid `ValidationResult` returned when a critique iteration finds
no errors (unified_query_service.py, lines 217-224). -/
def critiqueOkResult (b a : ValidationResult) (allWarns : List String) : ValidationResult :=
  { is_valid := true
    confidence := min b.confidence a.confidence
    errors := []
    warnings := allWarns
    cost_estimate := a.cost_estimate }

/-- One step of the `while attempt < max_attempts` loop of
`validate_with_critique` (unified_query_service.py, lines 203-267),
with `fuel = max_attempts - attempt`.  The `last` argument carries the
`all_errors`/`all_warnings` of the previous iteration; when the loop body
never ran (`max_attempts = 0`) those Python locals are unbound, so the
post-loop `return` raises `NameError` — modelled as `none`.  The second
component counts the validation-and-fix iterations performed. -/
def critiqueGo (aiV : String → ValidationResult) (fixer : String → List String → String)
    (sql0 : String) (maxAttempts : Nat) :
    Nat → String → Option (List String × List String) →
      Option (String × ValidationResult) × Nat
  | 0, current, last =>
      match last with
      | none => (none, 0)
      | some (errs, warns) =>
          (some (current, critiqueFailResult sql0 current maxAttempts errs warns), 0)
  | fuel + 1, current, _ =>
      let b := validateBasic current
      let a := aiV current
      let allErrs := b.errors ++ a.errors
      let allWarns := b.warnings ++ a.warnings
      if allErrs.isEmpty then
        (some (current, critiqueOkResult b a allWarns), 1)
      else
        let fixed := fixer current allErrs
        if fixed ≠ "" ∧ fixed ≠ current then
          let r := critiqueGo aiV fixer sql0 maxAttempts fuel fixed (some (allErrs, allWarns))
          (r.1, r.2 + 1)
        else
          (some (current, critiqueFailResult sql0 current maxAttempts allErrs allWarns), 1)

/-- `MultiLevelSQLValidator.validate_with_critique(sql, question, max_attempts)`,
returning the final `(sql, ValidationResult)` pair (`none` for the
`max_attempts = 0` `NameError`) together with the number of iterations
performed. -/
def validateWithCritique (aiV : String → ValidationResult)
    (fixer : String → List String → String) (sql : String) (maxAttempts : Nat) :
    Option (String × ValidationResult) × Nat :=
  critiqueGo aiV fixer sql maxAttempts maxAttempts sql none

/-- The `ValidationLevel` enum of `unified_query_service.py`. -/
inductive VLevel | basic | moderate | strict | paranoid
  deriving Repr, DecidableEq

/-- The verdict `process_sql_query` uses at `ValidationLevel.MODERATE`
(unified_query_service.py, lines 526-534): the AI verdict when the basic
check passes, else the basic verdict. -/
def moderateVerdict (aiV : String → ValidationResult) (sql : String) : ValidationResult :=
  let b := validateBasic sql
  if b.is_valid then aiV sql else b

/-- Outcome of `UnifiedQueryService.process_sql_query`: the query handed to
`execute_sql_safely` (if any), the final query text and the verdict
(`none` for the caught `NameError` path). -/
structure SqlProcessOutcome where
  executed : Option String
  finalSql : String
  verdict : Option ValidationResult
  deriving Repr, DecidableEq

/-- `UnifiedQueryService.process_sql_query` (unified_query_service.py,
lines 514-563) after SQL generation, which is driven by the external model
and enters here as the arbitrary string `gensql`.  `execute_sql_safely` is
invoked exactly when the selected verdict has `is_valid`. -/
def processSqlQuery (lvl : VLevel) (gensql : String) (aiV : String → ValidationResult)
    (fixer : String → List String → String) (maxAttempts : Nat) : SqlProcessOutcome :=
  match lvl with
  | .basic =>
      let v := validateBasic gensql
      { executed := if v.is_valid then some gensql else none, finalSql := gensql, verdict := some v }
  | .moderate =>
      let v := moderateVerdict aiV gensql
      { executed := if v.is_valid then some gensql else none, finalSql := gensql, verdict := some v }
  | .strict | .paranoid =>
      match (validateWithCritique aiV fixer gensql maxAttempts).1 with
      | none => { executed := none, finalSql := gensql, verdict := none }
      | some (fin, v) =>
          { executed := if v.is_valid then some fin else none, finalSql := fin, verdict := some v }

/-! ### The fallback pipeline's validator and the two executors -/

/-- Outcome dict of `SQLValidatorAgent.execute` (agentic_team_system.py,
lines 288-351).  The unbalanced-parentheses finding goes to `warnings`
there, and two performance findings are warnings too. -/
structure AgentValidation where
  is_valid : Bool
  errors : List String
  warnings : List String
  security_flags : List String
  confidence : ℚ
  deriving Repr, DecidableEq

/-- `SQLValidatorAgent.execute` on the input query. -/
def sqlValidatorExecute (sql : String) : AgentValidation :=
  let errors :=
    (if forbiddenSearch sql then
       ["Write operations are forbidden. Only SELECT queries allowed."] else [])
    ++ injectionErrors sql
    ++ (if !startsWithSelect sql then ["Query must start with SELECT"] else [])
  let warnings :=
    (if countChar sql '(' ≠ countChar sql ')' then ["Unmatched parentheses in query"] else [])
    ++ (if containsCI "select *" sql && !containsCI "limit" sql then
         ["Consider adding LIMIT clause for SELECT * queries"] else [])
    ++ (if 1000 < sql.length then ["Query is very long, consider optimization"] else [])
  let flags :=
    (if forbiddenSearch sql then ["WRITE_OPERATION_DETECTED"] else [])
    ++ injectionPatterns.filterMap (fun p => if p.2 sql then some "INJECTION_PATTERN" else none)
  { is_valid := errors.isEmpty
    errors := errors
    warnings := warnings
    security_flags := flags
    confidence := if errors.isEmpty then 9/10 else 1/5 }

/-- Result of an executor call.  `executedQuery` is the text passed to
`execute_sql_query`; `rows`/`row_count` are `none` on the store-failure
path, whose response dict carries no row data.  Neither executor's
response dict contains a truncation flag. -/
structure ExecOutcome (Row : Type) where
  success : Bool
  executedQuery : String
  sqlField : String
  rows : Option (List Row)
  row_count : Option Nat
  deriving Repr, DecidableEq

/-- `UnifiedQueryService.execute_sql_safely` (unified_query_service.py,
lines 661-688): executes `sql` unchanged against the store oracle, then
truncates the returned rows at `maxResultRows`. -/
def executeSqlSafely {Row : Type} (store : String → Except String (List Row))
    (sql : String) (maxResultRows : Nat) : ExecOutcome Row :=
  match store sql with
  | .error _ =>
      { success := false, executedQuery := sql, sqlField := pyStrip sql
        rows := none, row_count := none }
  | .ok rows =>
      let rows2 := if maxResultRows < rows.length then rows.take maxResultRows else rows
      { success := true, executedQuery := sql, sqlField := pyStrip sql
        rows := some rows2, row_count := some rows2.length }

/-- `SQLExecutorAgent.execute` (agentic_team_system.py, lines 372-421):
appends ` LIMIT max_rows` (after an rstrip of `';'`) when `max_rows` is truthy
and `LIMIT` does not occur case-insensitively in the query, then executes
and truncates. -/
def sqlExecutorExecute {Row : Type} (store : String → Except String (List Row))
    (sql : String) (maxRows : Nat) : ExecOutcome Row :=
  let sql2 := if maxRows ≠ 0 && !containsCI "limit" sql then
      pyRstripSemi sql ++ " LIMIT " ++ toString maxRows
    else sql
  match store sql2 with
  | .error _ =>
      { success := false, executedQuery := sql2, sqlField := pyStrip sql2
        rows := none, row_count := none }
  | .ok rows =>
      let rows2 := if maxRows ≠ 0 && maxRows < rows.length then rows.take maxRows else rows
      { success := true, executedQuery := sql2, sqlField := pyStrip sql2
        rows := some rows2, row_count := some rows2.length }

/-- `AgenticTeamSystem._process_sql_query` (agentic_team_system.py, lines
667-732) after generation: returns the query text handed to the executor's
store call, or `none` when validation rejects the generated query. -/
def agenticProcessSqlExecuted {Row : Type} (store : String → Except String (List Row))
    (gensql : String) : Option String :=
  let v := sqlValidatorExecute gensql
  if v.is_valid then some (sqlExecutorExecute store gensql 1000).executedQuery
  else none

/-! ### Schema cache (`SmartSQLGenerator.get_schema_info`,
`SQLGeneratorAgent.get_schema_info`)

The two methods (unified_query_service.py lines 440-456 and
agentic_team_system.py lines 184-199) implement the identical algorithm;
one embedding covers both.  The external fetch `await get_schema_info()`
is the oracle `fetch`. -/

/-- Cache state: `self.schema_cache` (initially `None`) and
`self.schema_cache_time`. -/
structure SchemaCacheState where
  cache : Option String
  cacheTime : ℚ
  deriving Repr, DecidableEq

/-- Python truthiness of the optional cached string: `if self.schema_cache`
is false for `None` and for the empty string. -/
def pyTruthyCache (c : Option String) : Bool :=
  match c with
  | some s => !(s == "")
  | none => false

/-- `get_schema_info` at time `now`: serves the cache when truthy and
younger than the 600s TTL; otherwise refreshes, and on fetch failure
returns the literal `"Schema information unavailable"` marker without
touching the cache. -/
def getSchemaInfo (st : SchemaCacheState) (now : ℚ) (fetch : Except Unit String) :
    String × SchemaCacheState :=
  if pyTruthyCache st.cache ∧ now - st.cacheTime < 600 then
    (st.cache.getD "", st)
  else
    match fetch with
    | .ok s => (s, { cache := some s, cacheTime := now })
    | .error _ => ("Schema information unavailable", st)

/-! ### Intent classification

`IntentClassifier.classify_intent` (unified_query_service.py, lines
377-430) parses the external model's classification response; on any
internal exception the `except` branch returns `(DOCUMENT, 0.5)`.
The JSON decoding `json.loads` is the oracle `parse` (it may raise), and
`float(·)` applied to a JSON string is the oracle `strToFloat`. -/

/-- The `QueryType` enum. -/
inductive QType | sql | document | hybrid
  deriving Repr, DecidableEq

/-- A decoded JSON value, as far as the classifier inspects it. -/
inductive JVal
  | jstr (s : String)
  | jnum (q : ℚ)
  | jbool (b : Bool)
  | jnull
  | jarr
  | jobj
  deriving Repr, DecidableEq

/-- `dict.get(k)` on a decoded JSON object. -/
def jget (obj : List (String × JVal)) (k : String) : Option JVal :=
  (obj.find? (fun p => p.1 == k)).map (fun p => p.2)

/-- `v.lower()`: only strings have the attribute, anything else raises
`AttributeError`. -/
def pyLowerAttr : JVal → Except Unit String
  | .jstr s => .ok (pyLower s)
  | _ => .error ()

/-- `QueryType(value)`: raises `ValueError` unless `value` is one of the
enum values. -/
def queryTypeOfStr : String → Except Unit QType
  | "sql" => .ok .sql
  | "document" => .ok .document
  | "hybrid" => .ok .hybrid
  | _ => .error ()

/-- `float(v)` on a decoded JSON value; numeric-string parsing is the
oracle `strToFloat`, every non-number non-string raises `TypeError`
(`bool` converts). -/
def pyFloatJ (strToFloat : String → Except Unit ℚ) : JVal → Except Unit ℚ
  | .jnum q => .ok q
  | .jbool b => .ok (if b then 1 else 0)
  | .jstr s => strToFloat s
  | _ => .error ()

/-- The `sql_indicators` of the classifier's keyword fallback
(unified_query_service.py, line 415). -/
def uSqlIndicators : List String :=
  ["total", "sum", "count", "average", "how many", "list all"]

/-- The `doc_indicators` of the classifier's keyword fallback
(unified_query_service.py, line 416). -/
def uDocIndicators : List String :=
  ["policy", "procedure", "definition", "requirements", "steps"]

/-- `sum(1 for indicator in indicators if indicator in question_lower)`. -/
def countMatches (indicators : List String) (question : String) : Nat :=
  (indicators.filter (fun ind => containsSub ind.toList (lcs question))).length

/-- The keyword fallback branch of `classify_intent` (lines 411-426). -/
def uFallbackClassify (question : String) : QType × ℚ :=
  let sqlScore := countMatches uSqlIndicators question
  let docScore := countMatches uDocIndicators question
  if docScore < sqlScore then (.sql, 7/10)
  else if 0 < docScore then (.document, 7/10)
  else (.document, 1/2)

/-- The `try` body of `classify_intent`: structured parsing of the model
response when it starts with a brace, else the keyword fallback. -/
def classifyIntentCore (parse : String → Except Unit (List (String × JVal)))
    (strToFloat : String → Except Unit ℚ) (resp : String) (question : String) :
    Except Unit (QType × ℚ) :=
  if startsWithBrace resp then do
    let obj ← parse resp
    let catS ← pyLowerAttr ((jget obj "category").getD (.jstr "DOCUMENT"))
    let cat ← queryTypeOfStr catS
    let conf ← pyFloatJ strToFloat ((jget obj "confidence").getD (.jnum (1/2)))
    pure (cat, conf)
  else
    pure (uFallbackClassify question)

/-- `IntentClassifier.classify_intent`: the `except` branch turns any
internal error into `(DOCUMENT, 0.5)` (line 430). -/
def classifyIntent (parse : String → Except Unit (List (String × JVal)))
    (strToFloat : String → Except Unit ℚ) (resp : String) (question : String) :
    QType × ℚ :=
  match classifyIntentCore parse strToFloat resp question with
  | .ok r => r
  | .error _ => (.document, 1/2)

/-! ### `RouterAgent.execute` (agentic_team_system.py, lines 106-174) -/

/-- `sql_indicators` of the router (lines 114-118). -/
def rSqlIndicators : List String :=
  ["total", "sum", "count", "average", "how many", "list all", "show me",
   "top", "highest", "lowest", "distribution", "calculate", "compare",
   "sales amount", "customers", "products", "orders", "profit margin"]

/-- `doc_indicators` of the router (lines 120-124). -/
def rDocIndicators : List String :=
  ["policy", "procedure", "definition", "requirements", "steps", "compliance",
   "according to", "standards", "framework", "code of conduct", "practices",
   "measures must be implemented", "criteria", "handle claims"]

/-- `hybrid_indicators` of the router (lines 126-129). -/
def rHybridIndicators : List String :=
  ["based on our", "according to our policy", "meet our requirements",
   "qualify as", "exceed our thresholds", "comply with our"]

/-- Result of `RouterAgent.execute` on the success path. -/
structure RouterResult where
  intent : QType
  confidence : ℚ
  sql_score : Nat
  doc_score : Nat
  hybrid_score : Nat
  deriving Repr, DecidableEq

/-- `RouterAgent.execute`: scores the three keyword families and picks the
intent, capping the confidence at 0.95. -/
def routerExecute (question : String) : RouterResult :=
  let s := countMatches rSqlIndicators question
  let d := countMatches rDocIndicators question
  let h := countMatches rHybridIndicators question
  let ic : QType × ℚ :=
    if 0 < h then (.hybrid, 4/5 + (h : ℚ) * (1/20))
    else if d < s then (.sql, 7/10 + (s : ℚ) * (1/20))
    else if 0 < d then (.document, 7/10 + (d : ℚ) * (1/20))
    else (.document, 1/2)
  { intent := ic.1, confidence := min ic.2 (19/20)
    sql_score := s, doc_score := d, hybrid_score := h }

/-- Transcribed from the claim wording (C10), for comparison with the two
implementations: "if `hybrid_score > 0` the intent is HYBRID; otherwise if
`sql_score > doc_score` the intent is SQL; otherwise if `doc_score > 0`
the intent is DOCUMENT; otherwise the intent defaults to DOCUMENT". -/
def specIntentRule (sqlScore docScore hybridScore : Nat) : QType :=
  if 0 < hybridScore then .hybrid
  else if docScore < sqlScore then .sql
  else if 0 < docScore then .document
  else .document

/-! ### `RAGRetrieverAgent.execute` (agentic_team_system.py, lines 429-487)

`search_policy_documents` is declared `async def`
(postgres_manager.py, line 255) but is called without `await`
(agentic_team_system.py, line 461), so the local `documents` is a
coroutine object, not a list.  The dynamic typing is embedded by a small
value type on which `len` can raise `TypeError`. -/

/-- A Python value that is either a list of documents or an un-awaited
coroutine object. -/
inductive PyDocsVal (Doc : Type)
  | listV (ds : List Doc)
  | coroutine

/-- `len(v)`: raises `TypeError` on a coroutine. -/
def pyLen {Doc : Type} : PyDocsVal Doc → Except String Nat
  | .listV ds => .ok ds.length
  | .coroutine => .error "TypeError: object of type 'coroutine' has no len()"

/-- Python truthiness: a coroutine object is truthy, a list is truthy iff
non-empty. -/
def pyTruthyDocs {Doc : Type} : PyDocsVal Doc → Bool
  | .listV ds => !ds.isEmpty
  | .coroutine => true

/-- The domain-term extraction of `RAGRetrieverAgent.execute`
(lines 437-454). -/
def ragDomainTerms (question : String) : List String :=
  (if containsCI "inventory" question then ["inventory", "stock", "warehouse"] else [])
  ++ (if containsCI "supplier" question then ["supplier", "vendor", "procurement"] else [])
  ++ (if containsCI "sustainability" question then ["sustainability", "environment", "green"] else [])
  ++ (if containsCI "quality" question then ["quality", "QA", "assurance"] else [])
  ++ (if containsCI "security" question then ["security", "data", "cyber"] else [])
  ++ (if containsCI "return" question then ["return", "reverse", "logistics"] else [])
  ++ (if containsCI "risk" question then ["risk", "management", "disruption"] else [])

/-- Search terms with the generic default (lines 456-457). -/
def ragSearchTerms (question : String) : List String :=
  let ts := ragDomainTerms question
  if ts.isEmpty then ["policy", "procedure", "standard"] else ts

/-- Result dict of `RAGRetrieverAgent.execute`. -/
structure RagRetrieval (Doc : Type) where
  success : Bool
  documents : List Doc
  search_terms : List String
  confidence : ℚ

/-- `RAGRetrieverAgent.execute`: building the success `AgentResult`
evaluates `len(documents)` for the metadata, which raises on the
coroutine, so the `except` branch produces the failure result with an
empty document list (lines 476-487). -/
def ragRetrieverExecute (Doc : Type) (question : String) (_topK : Nat) : RagRetrieval Doc :=
  let terms := ragSearchTerms question
  let documents : PyDocsVal Doc := .coroutine
  match pyLen documents with
  | .error _ => { success := false, documents := [], search_terms := [], confidence := 0 }
  | .ok _ =>
      { success := true
        documents := match documents with | .listV ds => ds | .coroutine => []
        search_terms := terms
        confidence := if pyTruthyDocs documents then 4/5 else 3/10 }

/-! ### Hybrid merging

`AgenticTeamSystem._process_hybrid_query` (agentic_team_system.py, lines
782-823) merges the two sub-results by template; `UnifiedQueryService.
process_hybrid_query` (unified_query_service.py, lines 605-659) hands both
sub-results to the external model and uses its output as the answer — the
`except` branch around the synthesis call is unreachable because
`call_model` catches every exception internally. -/

/-- The fields of a sub-result dict read by the hybrid merges; a missing
key is `none` (Python `dict.get`). -/
structure RespDict where
  type : Option String
  error : Option String
  answer : Option String
  explanation : Option String
  validation_confidence : Option ℚ
  confidence : Option ℚ
  deriving Repr, DecidableEq

/-- `r.get("type") == "error"`. -/
def isErrorResp (r : RespDict) : Bool := r.type == some "error"

/-- The template merge of `_process_hybrid_query` (lines 798-816). -/
def agenticHybridMerge (sqlR docR : RespDict) : RespDict :=
  let synthesis :=
    if !isErrorResp sqlR && !isErrorResp docR then
      "Based on our data analysis and policy guidelines: "
        ++ docR.answer.getD "No policy context available."
        ++ " The current data shows "
        ++ sqlR.explanation.getD "data analysis results" ++ "."
    else if !isErrorResp sqlR then
      "Data analysis shows: " ++ sqlR.explanation.getD "results available"
    else if !isErrorResp docR then
      docR.answer.getD "Policy information available"
    else
      "Unable to process hybrid query due to system limitations."
  { type := some "hybrid_query"
    error := none
    answer := some synthesis
    explanation := none
    validation_confidence := none
    confidence := some (min (sqlR.validation_confidence.getD (1/2)) (docR.confidence.getD (1/2))) }

/-- The merge step of `process_hybrid_query` (lines 616-643): `synth` is
the external model's output on the synthesis prompt and becomes the answer
unconditionally. -/
def unifiedHybridMerge (synth : String) (sqlR docR : RespDict) : RespDict :=
  { type := some "hybrid_query"
    error := none
    answer := some synth
    explanation := none
    validation_confidence := none
    confidence := some (min (sqlR.validation_confidence.getD (1/2)) (docR.confidence.getD (1/2))) }

/-! ### `EnhancedRAGSystem.semantic_search` (unified_query_service.py,
lines 276-330)

The concept-extraction phase (lines 280-304) asks the external model for
search terms, defaulting to `[question]`; the resulting list enters the
retrieval phase below as the arbitrary `searchTerms`.  The per-term
document-store call `search_policy_documents(term, top_k)` is the oracle
`store`. -/

/-- A raw document from the store: `_id` is `str(doc.get("_id", ""))`
modelled as the stringified identifier (`none` when the field is
missing), `score` is `doc.get("score", 1.0)`. -/
structure RawDoc where
  rawId : Option String
  content : String
  title : String
  score : Option ℚ
  deriving Repr, DecidableEq

/-- The entry built for `unique_docs[doc_id]` (lines 318-323). -/
structure RankedDoc where
  id : String
  content : String
  title : String
  relevance_score : ℚ
  deriving Repr, DecidableEq

/-- Conversion of a raw store document to the ranked entry. -/
def toRanked (d : RawDoc) : RankedDoc :=
  { id := d.rawId.getD "", content := d.content, title := d.title
    relevance_score := d.score.getD 1 }

/-- First-occurrence-wins deduplication by `id`: the `unique_docs` dict of
lines 314-323 in insertion order (Python dicts preserve it). -/
def dedupGo (seen : List String) : List RankedDoc → List RankedDoc
  | [] => []
  | d :: ds => if d.id ∈ seen then dedupGo seen ds else d :: dedupGo (d.id :: seen) ds

/-- Insertion of `d` into a list sorted descending by score: `d` goes
after every element of strictly greater score and before the first
element of equal or smaller score.  In `sortDesc`'s right fold the
inserted element is the one earliest in the input, so equal-score
elements keep their input order — the stability of Python `sorted` with
`reverse=True`; a stable sort is unique, so this models
`sorted(..., key=..., reverse=True)` exactly. -/
def insertDesc (d : RankedDoc) : List RankedDoc → List RankedDoc
  | [] => [d]
  | e :: es =>
      if d.relevance_score < e.relevance_score then e :: insertDesc d es
      else d :: e :: es

/-- Stable descending sort by `relevance_score`: the unique stable sort,
hence the behaviour of `sorted(..., key=lambda x: x["relevance_score"],
reverse=True)` (line 325). -/
def sortDesc : List RankedDoc → List RankedDoc
  | [] => []
  | d :: ds => insertDesc d (sortDesc ds)

/-- The merged stream of ranked entries: the per-term store results of the
first three search terms, concatenated in term order (lines 308-311). -/
def mergedDocs (searchTerms : List String) (store : String → List RawDoc) : List RankedDoc :=
  ((searchTerms.take 3).flatMap store).map toRanked

/-- The retrieval phase of `semantic_search` (lines 306-330): merge,
dedup first-wins, sort descending by relevance, return the first `topK`. -/
def semanticSearchDocs (searchTerms : List String) (store : String → List RawDoc)
    (topK : Nat) : List RankedDoc :=
  (sortDesc (dedupGo [] (mergedDocs searchTerms store))).take topK

/-! ### Lemmas about the validators and the critique loop -/

/-- A query matched by the forbidden-keyword regex always makes
`validate_basic` report an error. -/
theorem validateBasic_errors_ne_nil (sql : String) (h : forbiddenSearch sql = true) :
    (validateBasic sql).errors ≠ [] := by
  simp only [validateBasic, h, if_pos]
  intro hc
  exact List.cons_ne_nil _ _ (List.append_eq_nil.mp hc).1

/-- `validate_basic` declares a query invalid whenever the forbidden
regex matches. -/
theorem validateBasic_invalid (sql : String) (h : forbiddenSearch sql = true) :
    (validateBasic sql).is_valid = false := by
  have h2 := validateBasic_errors_ne_nil sql h
  have : (validateBasic sql).is_valid = (validateBasic sql).errors.isEmpty := by
    simp [validateBasic]
  rw [this]
  simpa using h2

/-- Conversely: an empty `validate_basic` error list means the forbidden
regex did not match. -/
theorem forbidden_false_of_errors_nil (sql : String)
    (h : (validateBasic sql).errors = []) : forbiddenSearch sql = false := by
  by_contra hne
  exact validateBasic_errors_ne_nil sql (by simpa using hne) h

/-- Same statement for the fallback validator: the forbidden regex forces
an error. -/
theorem sqlValidatorExecute_invalid (sql : String) (h : forbiddenSearch sql = true) :
    (sqlValidatorExecute sql).is_valid = false := by
  simp only [sqlValidatorExecute, h, if_pos]
  simp

/-- Whenever the critique loop reports a valid verdict, the accompanying
query passed `validate_basic`, hence matches no mutating keyword. -/
theorem critiqueGo_valid_no_forbidden (aiV : String → ValidationResult)
    (fixer : String → List String → String) (sql0 : String) (maxA : Nat) :
    ∀ fuel current last fin v n,
      critiqueGo aiV fixer sql0 maxA fuel current last = (some (fin, v), n) →
      v.is_valid = true → forbiddenSearch fin = false := by
  intro fuel
  induction fuel with
  | zero =>
      intro current last fin v n h hv
      cases last with
      | none => simp [critiqueGo] at h
      | some p =>
          simp only [critiqueGo, Prod.mk.injEq, Option.some.injEq] at h
          rw [← h.1.2] at hv
          simp [critiqueFailResult] at hv
  | succ fuel ih =>
      intro current last fin v n h hv
      simp only [critiqueGo] at h
      by_cases he : ((validateBasic current).errors ++ (aiV current).errors).isEmpty = true
      · rw [if_pos (by simpa using he)] at h
        simp only [Prod.mk.injEq, Option.some.injEq] at h
        rw [← h.1.1]
        have : (validateBasic current).errors = [] :=
          (List.append_eq_nil.mp (List.isEmpty_iff.mp he)).1
        exact forbidden_false_of_errors_nil current this
      · rw [if_neg (by simpa using he)] at h
        by_cases hfx : fixer current ((validateBasic current).errors ++ (aiV current).errors) ≠ ""
            ∧ fixer current ((validateBasic current).errors ++ (aiV current).errors) ≠ current
        · rw [if_pos hfx] at h
          simp only [Prod.mk.injEq] at h
          exact ih _ _ fin v _ (Prod.ext h.1 rfl) hv
        · rw [if_neg hfx] at h
          simp only [Prod.mk.injEq, Option.some.injEq] at h
          rw [← h.1.2] at hv
          simp [critiqueFailResult] at hv

/-- The iteration count of the critique loop is bounded by the fuel. -/
theorem critiqueGo_count_le (aiV : String → ValidationResult)
    (fixer : String → List String → String) (sql0 : String) (maxA : Nat) :
    ∀ fuel current last, (critiqueGo aiV fixer sql0 maxA fuel current last).2 ≤ fuel := by
  intro fuel
  induction fuel with
  | zero =>
      intro current last
      cases last <;> simp [critiqueGo]
  | succ fuel ih =>
      intro current last
      simp only [critiqueGo]
      split
      · simp
      · split
        · simpa using Nat.succ_le_succ (ih _ _)
        · simp

/-- With positive fuel, or with carried-over errors, the loop returns a
value (the `NameError` path needs fuel 0 and no previous iteration). -/
theorem critiqueGo_returns (aiV : String → ValidationResult)
    (fixer : String → List String → String) (sql0 : String) (maxA : Nat) :
    ∀ fuel current last, fuel ≠ 0 ∨ last.isSome = true →
      (critiqueGo aiV fixer sql0 maxA fuel current last).1.isSome = true := by
  intro fuel
  induction fuel with
  | zero =>
      intro current last h
      rcases h with h | h
      · exact absurd rfl h
      · cases last with
        | none => simp at h
        | some p => simp [critiqueGo]
  | succ fuel ih =>
      intro current last _
      simp only [critiqueGo]
      split
      · simp
      · split
        · exact ih _ _ (by cases fuel <;> simp)
        · simp

/-- C1: a candidate query matched by the mutating-keyword regex
(INSERT/UPDATE/DELETE/DROP/TRUNCATE/ALTER/CREATE/GRANT/REVOKE as a word,
any case) is declared invalid by `validate_basic`, by the MODERATE-level
verdict and by the fallback validator; any verdict the critique loop
marks valid belongs to a rewritten query free of mutating keywords; and
neither `process_sql_query` (at any level) nor the fallback pipeline ever
hands a mutating query — in particular the candidate itself — to the
executor. -/
theorem c1_mutating_keywords_rejected (gensql : String) (aiV : String → ValidationResult)
    (fixer : String → List String → String) (maxAttempts : Nat) (lvl : VLevel)
    {Row : Type} (store : String → Except String (List Row))
    (hforb : forbiddenSearch gensql = true) :
    (validateBasic gensql).is_valid = false
    ∧ (moderateVerdict aiV gensql).is_valid = false
    ∧ (∀ fin v, (validateWithCritique aiV fixer gensql maxAttempts).1 = some (fin, v) →
        v.is_valid = true → forbiddenSearch fin = false ∧ fin ≠ gensql)
    ∧ (∀ q, (processSqlQuery lvl gensql aiV fixer maxAttempts).executed = some q →
        forbiddenSearch q = false ∧ q ≠ gensql)
    ∧ (sqlValidatorExecute gensql).is_valid = false
    ∧ agenticProcessSqlExecuted store gensql = none := by
  have hbasic := validateBasic_invalid gensql hforb
  have hmod : (moderateVerdict aiV gensql).is_valid = false := by
    simp [moderateVerdict, hbasic]
  have hcrit : ∀ fin v, (validateWithCritique aiV fixer gensql maxAttempts).1 = some (fin, v) →
      v.is_valid = true → forbiddenSearch fin = false ∧ fin ≠ gensql := by
    intro fin v h hv
    have hfree : forbiddenSearch fin = false := by
      refine critiqueGo_valid_no_forbidden aiV fixer gensql maxAttempts
        maxAttempts gensql none fin v (validateWithCritique aiV fixer gensql maxAttempts).2 ?_ hv
      exact Prod.ext h rfl
    refine ⟨hfree, ?_⟩
    intro heq
    rw [heq, hforb] at hfree
    simp at hfree
  refine ⟨hbasic, hmod, hcrit, ?_, sqlValidatorExecute_invalid gensql hforb, ?_⟩
  · intro q hq
    cases lvl with
    | basic => simp [processSqlQuery, hbasic] at hq
    | moderate => simp [processSqlQuery, hmod] at hq
    | strict | paranoid =>
        simp only [processSqlQuery] at hq
        rcases hm : (validateWithCritique aiV fixer gensql maxAttempts).1 with - | ⟨fin, v⟩
        · rw [hm] at hq; simp at hq
        · rw [hm] at hq
          dsimp only at hq
          by_cases hv : v.is_valid = true
          · rw [if_pos hv] at hq
            obtain rfl : fin = q := by simpa using hq
            exact hcrit fin v hm hv
          · rw [if_neg hv] at hq
            simp at hq
  · simp [agenticProcessSqlExecuted, sqlValidatorExecute_invalid gensql hforb]

/-- C1 witness: the theorem applied to the concrete mutating candidate
`"DROP TABLE users"` with a permissive AI verdict, an adversarial fixer
that returns the query unchanged, the STRICT level and an empty store. -/
theorem c1_mutating_keywords_rejected_witness :
    (validateBasic "DROP TABLE users").is_valid = false
    ∧ agenticProcessSqlExecuted (fun _ => Except.ok ([] : List Nat)) "DROP TABLE users" = none := by
  have h := c1_mutating_keywords_rejected "DROP TABLE users"
    (fun _ => ⟨true, 1, [], [], none, none⟩) (fun s _ => s) 3 VLevel.strict
    (fun _ => Except.ok ([] : List Nat)) (by decide)
  exact ⟨h.1, h.2.2.2.2.2⟩

/-- C2: the critique-fix loop performs at most `max_attempts`
validation-and-fix iterations; for `max_attempts ≥ 1` it always returns a
final verdict whatever the model's fix candidates do; and a fix candidate
identical to the current query makes the iteration at hand the last one
(iteration count 1 from that state), regardless of remaining budget. -/
theorem c2_critique_loop_bounded (aiV : String → ValidationResult)
    (fixer : String → List String → String) (sql : String) (maxAttempts : Nat)
    (hpos : 1 ≤ maxAttempts) :
    (validateWithCritique aiV fixer sql maxAttempts).2 ≤ maxAttempts
    ∧ (validateWithCritique aiV fixer sql maxAttempts).1.isSome = true
    ∧ (∀ current last fuel,
        fixer current ((validateBasic current).errors ++ (aiV current).errors) = current →
        ((validateBasic current).errors ++ (aiV current).errors) ≠ [] →
        (critiqueGo aiV fixer sql maxAttempts (fuel + 1) current last).2 = 1) := by
  refine ⟨critiqueGo_count_le aiV fixer sql maxAttempts maxAttempts sql none, ?_, ?_⟩
  · exact critiqueGo_returns aiV fixer sql maxAttempts maxAttempts sql none
      (Or.inl (by omega))
  · intro current last fuel hfix hne
    simp only [critiqueGo]
    rw [if_neg (by simpa using hne)]
    rw [if_neg (by simp [hfix])]

/-- C2 witness: an always-invalid AI verdict together with a fixer that
always returns the same query, on the mutating query `"DELETE FROM t"`
with the default budget 3: the loop returns after a single iteration. -/
theorem c2_critique_loop_bounded_witness :
    (validateWithCritique (fun _ => ⟨false, 0, ["AI detected potential security issues"], [], none, none⟩)
        (fun s _ => s) "DELETE FROM t" 3).2 ≤ 3
    ∧ (critiqueGo (fun _ => ⟨false, 0, ["AI detected potential security issues"], [], none, none⟩)
        (fun s _ => s) "DELETE FROM t" 3 3 "DELETE FROM t" none).2 = 1 := by
  have h := c2_critique_loop_bounded
    (fun _ => ⟨false, 0, ["AI detected potential security issues"], [], none, none⟩)
    (fun s _ => s) "DELETE FROM t" 3 (by omega)
  exact ⟨h.1, h.2.2 "DELETE FROM t" none 2 rfl (by decide)⟩

/-- C3 counterexample: in the primary pipeline's hybrid merge the answer
is the external model's synthesis output, taken verbatim; with the model
returning the empty string, a failed SQL sub-result and a successful
document sub-result ("Our policy requires quarterly reviews.") merge into
an empty answer, contradicting the claim. -/
theorem c3_counterexample :
    (unifiedHybridMerge ""
        ⟨some "sql_query", some "Query validation failed", none, none, none, none⟩
        ⟨some "policy_query", none, some "Our policy requires quarterly reviews.",
          none, none, some (4/5)⟩).answer = some "" := rfl

/-- C3 (amended): in the fallback pipeline's hybrid merge, when the SQL
sub-result is an error outcome and the document sub-result is not, the
merged answer is exactly the document sub-result's answer, hence non-empty
whenever that answer is. -/
theorem c3_fallback_merge_prefers_document (sqlR docR : RespDict) (a : String)
    (hsql : isErrorResp sqlR = true) (hdoc : isErrorResp docR = false)
    (hans : docR.answer = some a) (hne : a ≠ "") :
    (agenticHybridMerge sqlR docR).answer = docR.answer
    ∧ (agenticHybridMerge sqlR docR).answer ≠ some "" := by
  simp only [agenticHybridMerge, hsql, hdoc, hans, Bool.not_true, Bool.not_false,
    Bool.false_and, if_neg, ite_false, ite_true, Option.getD_some]
  exact ⟨rfl, by simpa using hne⟩

/-- C3 witness: the amended theorem at a concrete failed SQL sub-result
and a concrete successful document sub-result. -/
theorem c3_fallback_merge_prefers_document_witness :
    (agenticHybridMerge
        ⟨some "error", some "SQL processing failed", none, none, none, none⟩
        ⟨some "policy_query", none, some "Claims are validated within 24 hours.",
          none, none, some (4/5)⟩).answer
      = (⟨some "policy_query", none, some "Claims are validated within 24 hours.",
          none, none, some (4/5)⟩ : RespDict).answer :=
  (c3_fallback_merge_prefers_document _ _ "Claims are validated within 24 hours."
    (by decide) (by decide) rfl (by decide)).1

/-- C4: the fallback document retriever always fails: it calls the
asynchronous `search_policy_documents` without awaiting it, `len` of the
resulting coroutine raises `TypeError`, and the exception branch returns
`success = False` with an empty document list, for every question. -/
theorem c4_fallback_retriever_always_fails (Doc : Type) (question : String) (topK : Nat) :
    (ragRetrieverExecute Doc question topK).success = false
    ∧ (ragRetrieverExecute Doc question topK).documents = [] :=
  ⟨rfl, rfl⟩

/-- C5 counterexample: the primary executor `execute_sql_safely` passes
the query text to the store unchanged — for the cap-free query
`"SELECT 1"` with `max_rows = 1000`, no row cap is appended before
execution, contradicting the claim. -/
theorem c5_counterexample :
    (executeSqlSafely (fun _ => Except.ok ([] : List Nat)) "SELECT 1" 1000).executedQuery
        = "SELECT 1"
    ∧ containsCI "limit" "SELECT 1" = false := by
  exact ⟨rfl, by decide⟩

/-- C5 (amended): only the fallback executor appends ` LIMIT max_rows`
(after stripping trailing semicolons) when the query has no `LIMIT` and
`max_rows` is non-zero; both executors truncate the returned row set to at
most `max_rows`; the primary executor executes the text unchanged.  (No
truncation flag exists in either result dict.) -/
theorem c5_row_cap_behaviour {Row : Type} (store : String → Except String (List Row))
    (sql : String) (maxRows : Nat)
    (hnl : containsCI "limit" sql = false) (hm : maxRows ≠ 0) :
    (sqlExecutorExecute store sql maxRows).executedQuery
        = pyRstripSemi sql ++ " LIMIT " ++ toString maxRows
    ∧ (∀ rows, (sqlExecutorExecute store sql maxRows).rows = some rows →
        rows.length ≤ maxRows)
    ∧ (∀ rows, (executeSqlSafely store sql maxRows).rows = some rows →
        rows.length ≤ maxRows)
    ∧ (executeSqlSafely store sql maxRows).executedQuery = sql := by
  have hc : (decide (maxRows ≠ 0) && !containsCI "limit" sql) = true := by
    simp [hm, hnl]
  refine ⟨?_, ?_, ?_, ?_⟩
  · simp only [sqlExecutorExecute, hc, if_true]
    rcases store (pyRstripSemi sql ++ " LIMIT " ++ toString maxRows) <;> rfl
  · intro rows hrows
    simp only [sqlExecutorExecute, hc, if_true] at hrows
    rcases hs : store (pyRstripSemi sql ++ " LIMIT " ++ toString maxRows) with e | rs
    · rw [hs] at hrows; simp at hrows
    · rw [hs] at hrows
      simp only [Option.some.injEq] at hrows
      rw [← hrows]
      by_cases hlen : (decide (maxRows ≠ 0) && decide (maxRows < rs.length)) = true
      · rw [if_pos hlen]; simp
      · rw [if_neg hlen]
        simp only [hm, decide_eq_true_eq, Bool.and_eq_true, not_and] at hlen
        have := hlen (by simpa using hm)
        omega
  · intro rows hrows
    simp only [executeSqlSafely] at hrows
    rcases hs : store sql with e | rs
    · rw [hs] at hrows; simp at hrows
    · rw [hs] at hrows
      simp only [Option.some.injEq] at hrows
      rw [← hrows]
      by_cases hlen : maxRows < rs.length
      · rw [if_pos hlen]; simp
      · rw [if_neg hlen]; omega
  · simp only [executeSqlSafely]
    rcases store sql <;> rfl

/-- C5 witness: the amended theorem at a three-row store with
`max_rows = 2` and a cap-free query. -/
theorem c5_row_cap_behaviour_witness :
    (sqlExecutorExecute (fun _ => Except.ok ([10, 20, 30] : List Nat)) "SELECT x FROM t" 2).executedQuery
      = pyRstripSemi "SELECT x FROM t" ++ " LIMIT " ++ toString 2 :=
  (c5_row_cap_behaviour (fun _ => Except.ok ([10, 20, 30] : List Nat)) "SELECT x FROM t" 2
    (by decide) (by decide)).1

/-- Every injection-pattern error message differs from the
unbalanced-parentheses message (their lengths differ). -/
theorem injectionErrors_ne_paren (sql e : String) (h : e ∈ injectionErrors sql) :
    e ≠ "Unmatched parentheses in query" := by
  simp only [injectionErrors, List.mem_filterMap] at h
  obtain ⟨p, -, hp⟩ := h
  by_cases hb : p.2 sql = true
  · rw [if_pos hb] at hp
    obtain rfl := Option.some.inj hp
    intro heq
    have hlen := congrArg String.length heq
    rw [String.length_append] at hlen
    have h1 : ("Potential SQL injection pattern detected: ").length = 42 := rfl
    have h2 : ("Unmatched parentheses in query").length = 30 := rfl
    rw [h1, h2] at hlen
    omega
  · rw [if_neg hb] at hp
    exact absurd hp (by simp)

/-- C6 counterexample: the primary BASIC validator records unbalanced
parentheses as an error, not a warning, and that alone makes the query
invalid: `"SELECT (1"` trips none of the other checks yet fails. -/
theorem c6_counterexample :
    (validateBasic "SELECT (1").is_valid = false
    ∧ (validateBasic "SELECT (1").errors = ["Unmatched parentheses in query"]
    ∧ (validateBasic "SELECT (1").warnings = [] := by
  refine ⟨?_, ?_, ?_⟩ <;> decide

/-- C6 (amended): in the fallback validator `SQLValidatorAgent.execute`,
a parenthesis-count mismatch is recorded in the warnings, never in the
errors, and validity is decided by the error list alone — concretely,
`"SELECT (1"` stays valid there. -/
theorem c6_fallback_parens_warning (sql : String)
    (h : countChar sql '(' ≠ countChar sql ')') :
    "Unmatched parentheses in query" ∈ (sqlValidatorExecute sql).warnings
    ∧ "Unmatched parentheses in query" ∉ (sqlValidatorExecute sql).errors
    ∧ ((sqlValidatorExecute sql).is_valid = true ↔ (sqlValidatorExecute sql).errors = [])
    ∧ (sqlValidatorExecute "SELECT (1").is_valid = true := by
  refine ⟨?_, ?_, ?_, by decide⟩
  · simp only [sqlValidatorExecute]
    rw [if_pos h]
    exact List.mem_append_left _ (List.mem_cons_self _ _)
  · intro hmem
    simp only [sqlValidatorExecute] at hmem
    rcases List.mem_append.mp hmem with hmem1 | hsel
    · rcases List.mem_append.mp hmem1 with hforb | hinj
      · rcases hf : forbiddenSearch sql with - | -
        · rw [hf] at hforb; simp at hforb
        · rw [hf] at hforb
          simp only [if_true, List.mem_singleton] at hforb
          exact absurd hforb (by decide)
      · exact injectionErrors_ne_paren sql _ hinj rfl
    · rcases hs : (!startsWithSelect sql) with - | -
      · rw [hs] at hsel; simp at hsel
      · rw [hs] at hsel
        simp only [if_true, List.mem_singleton] at hsel
        exact absurd hsel (by decide)
  · simp only [sqlValidatorExecute]
    exact List.isEmpty_iff

/-- C6 witness: the amended theorem at the unbalanced query
`"SELECT (1"`. -/
theorem c6_fallback_parens_warning_witness :
    "Unmatched parentheses in query" ∈ (sqlValidatorExecute "SELECT (1").warnings :=
  (c6_fallback_parens_warning "SELECT (1" (by decide)).1

/-- C7 counterexample: an internal error in the primary classifier — here
a model response `'&#123;"category": null&#125;'` whose decoded category is `None`
so that `.lower()` raises — yields `(DOCUMENT, 0.5)`, not confidence 0.3
as claimed. -/
theorem c7_counterexample :
    classifyIntent (fun _ => Except.ok [("category", JVal.jnull)]) (fun _ => Except.error ())
        "\x7b\"category\": null\x7d" "q" = (QType.document, 1/2)
    ∧ ((1 : ℚ)/2 ≠ 3/10) := by
  exact ⟨rfl, by norm_num⟩

/-- C7 (amended): the primary classifier never propagates an internal
error: whenever the try-body errors, `classify_intent` returns the
DOCUMENT intent with confidence 0.5. -/
theorem c7_classifier_error_fallback (parse : String → Except Unit (List (String × JVal)))
    (strToFloat : String → Except Unit ℚ) (resp question : String)
    (h : classifyIntentCore parse strToFloat resp question = .error ()) :
    classifyIntent parse strToFloat resp question = (QType.document, 1/2) := by
  simp [classifyIntent, h]

/-- C7 witness: the amended theorem at a parse oracle that fails (the
model answered a brace-opened but malformed JSON text). -/
theorem c7_classifier_error_fallback_witness :
    classifyIntent (fun _ => Except.error ()) (fun _ => Except.error ()) "\x7bmalformed" "q"
      = (QType.document, 1/2) :=
  c7_classifier_error_fallback (fun _ => Except.error ()) (fun _ => Except.error ())
    "\x7bmalformed" "q" rfl

/-- C8 counterexample: with a stale cached snapshot (`"OLD"`, age 1000s
against the 600s TTL) and a failing fetch, `get_schema_info` returns the
"schema unavailable" marker instead of the stale snapshot. -/
theorem c8_counterexample :
    (getSchemaInfo ⟨some "OLD", 0⟩ 1000 (Except.error ())).1 = "Schema information unavailable"
    ∧ (getSchemaInfo ⟨some "OLD", 0⟩ 1000 (Except.error ())).1 ≠ "OLD" := by
  have hcond : ¬ (pyTruthyCache (some "OLD") = true ∧ (1000 : ℚ) - (0 : ℚ) < 600) := by
    rintro ⟨-, h2⟩
    norm_num at h2
  constructor
  · simp only [getSchemaInfo]
    rw [if_neg hcond]
  · simp only [getSchemaInfo]
    rw [if_neg hcond]
    decide

/-- C8 (amended): on a failing fetch, `get_schema_info` serves the cached
snapshot only when it is truthy and younger than the 600s TTL (in which
case no fetch happens at all); in every other state it returns the
"Schema information unavailable" marker with the state unchanged — the
fetch failure is never propagated. -/
theorem c8_schema_fetch_failure (st : SchemaCacheState) (now : ℚ) :
    getSchemaInfo st now (Except.error ())
      = if pyTruthyCache st.cache = true ∧ now - st.cacheTime < 600 then
          (st.cache.getD "", st)
        else ("Schema information unavailable", st) := by
  simp only [getSchemaInfo]

/-- C10: both keyword classifiers implement the claimed priority rule —
the fallback router over its three keyword families, and the primary
classifier's keyword branch with an empty hybrid family. -/
theorem c10_keyword_priority_rule (question : String) :
    (routerExecute question).intent
        = specIntentRule (routerExecute question).sql_score (routerExecute question).doc_score
            (routerExecute question).hybrid_score
    ∧ (uFallbackClassify question).1
        = specIntentRule (countMatches uSqlIndicators question)
            (countMatches uDocIndicators question) 0 := by
  constructor
  · unfold routerExecute specIntentRule
    dsimp only
    split_ifs <;> rfl
  · unfold uFallbackClassify specIntentRule
    dsimp only
    split_ifs <;> first | rfl | (exfalso; omega)

/-! ### Lemmas about the dedup and sort of `semantic_search` -/

/-- Inserting is a permutation of consing. -/
theorem insertDesc_perm (d : RankedDoc) (l : List RankedDoc) :
    List.Perm (insertDesc d l) (d :: l) := by
  induction l with
  | nil => exact List.Perm.refl _
  | cons e es ih =>
      simp only [insertDesc]
      split
      · exact (ih.cons e).trans (List.Perm.swap d e es)
      · exact List.Perm.refl _

/-- The sort permutes its input. -/
theorem sortDesc_perm (l : List RankedDoc) : List.Perm (sortDesc l) l := by
  induction l with
  | nil => exact List.Perm.refl _
  | cons d ds ih => exact (insertDesc_perm d (sortDesc ds)).trans (ih.cons d)

/-- Insertion preserves descending sortedness. -/
theorem insertDesc_sorted (d : RankedDoc) (l : List RankedDoc)
    (h : l.Pairwise (fun a b => b.relevance_score ≤ a.relevance_score)) :
    (insertDesc d l).Pairwise (fun a b => b.relevance_score ≤ a.relevance_score) := by
  induction l with
  | nil => simp [insertDesc]
  | cons e es ih =>
      rcases List.pairwise_cons.mp h with ⟨he, hes⟩
      simp only [insertDesc]
      by_cases hlt : d.relevance_score < e.relevance_score
      · rw [if_pos hlt]
        refine List.pairwise_cons.mpr ⟨?_, ih hes⟩
        intro b hb
        rcases List.mem_cons.mp ((insertDesc_perm d es).mem_iff.mp hb) with rfl | hbes
        · exact le_of_lt hlt
        · exact he b hbes
      · rw [if_neg hlt]
        refine List.pairwise_cons.mpr ⟨?_, h⟩
        intro b hb
        rcases List.mem_cons.mp hb with rfl | hbes
        · exact le_of_not_lt hlt
        · exact le_trans (he b hbes) (le_of_not_lt hlt)

/-- The sort output is descending in `relevance_score`. -/
theorem sortDesc_sorted (l : List RankedDoc) :
    (sortDesc l).Pairwise (fun a b => b.relevance_score ≤ a.relevance_score) := by
  induction l with
  | nil => simp [sortDesc]
  | cons d ds ih => exact insertDesc_sorted d (sortDesc ds) ih

/-- Stability of the insertion, score by score: the sub-sequence at any
fixed score gains `d` at its front exactly when `d` has that score. -/
theorem insertDesc_filter (d : RankedDoc) (q : ℚ) (l : List RankedDoc) :
    (insertDesc d l).filter (fun x => decide (x.relevance_score = q))
      = if d.relevance_score = q
        then d :: l.filter (fun x => decide (x.relevance_score = q))
        else l.filter (fun x => decide (x.relevance_score = q)) := by
  induction l with
  | nil =>
      by_cases hd : d.relevance_score = q
      · rw [if_pos hd]
        simp [insertDesc, List.filter, hd]
      · rw [if_neg hd]
        simp [insertDesc, List.filter, hd]
  | cons e es ih =>
      simp only [insertDesc]
      by_cases hlt : d.relevance_score < e.relevance_score
      · rw [if_pos hlt]
        by_cases hd : d.relevance_score = q
        · have hne : ¬ e.relevance_score = q := by
            intro hc
            rw [hd, hc] at hlt
            exact lt_irrefl q hlt
          rw [if_pos hd, List.filter_cons_of_neg (by simpa using hne),
            List.filter_cons_of_neg (by simpa using hne), ih, if_pos hd]
        · rw [if_neg hd]
          by_cases he : e.relevance_score = q
          · rw [List.filter_cons_of_pos (by simpa using he),
              List.filter_cons_of_pos (by simpa using he), ih, if_neg hd]
          · rw [List.filter_cons_of_neg (by simpa using he),
              List.filter_cons_of_neg (by simpa using he), ih, if_neg hd]
      · rw [if_neg hlt]
        by_cases hd : d.relevance_score = q
        · rw [if_pos hd, List.filter_cons_of_pos (by simpa using hd)]
        · rw [if_neg hd, List.filter_cons_of_neg (by simpa using hd)]

/-- Stability of the sort: at any fixed score, the sorted list carries
exactly the input's elements of that score, in input order. -/
theorem sortDesc_filter (q : ℚ) (l : List RankedDoc) :
    (sortDesc l).filter (fun x => decide (x.relevance_score = q))
      = l.filter (fun x => decide (x.relevance_score = q)) := by
  induction l with
  | nil => rfl
  | cons d ds ih =>
      simp only [sortDesc]
      rw [insertDesc_filter, ih]
      by_cases hd : d.relevance_score = q
      · rw [if_pos hd, List.filter_cons_of_pos (by simpa using hd)]
      · rw [if_neg hd, List.filter_cons_of_neg (by simpa using hd)]

/-- Every identifier kept by the dedup was previously unseen. -/
theorem dedupGo_id_not_seen (l : List RankedDoc) :
    ∀ (seen : List String), ∀ d ∈ dedupGo seen l, d.id ∉ seen := by
  induction l with
  | nil => intro seen d hd; simp [dedupGo] at hd
  | cons x xs ih =>
      intro seen d hd
      simp only [dedupGo] at hd
      by_cases hx : x.id ∈ seen
      · rw [if_pos hx] at hd
        exact ih seen d hd
      · rw [if_neg hx] at hd
        rcases List.mem_cons.mp hd with rfl | hmem
        · exact hx
        · intro hc
          exact ih (x.id :: seen) d hmem (List.mem_cons_of_mem _ hc)

/-- First occurrence wins: every document kept by the dedup is the first
element of the input stream bearing its identifier. -/
theorem dedupGo_find (l : List RankedDoc) :
    ∀ (seen : List String), ∀ d ∈ dedupGo seen l,
      l.find? (fun e => e.id == d.id) = some d := by
  induction l with
  | nil => intro seen d hd; simp [dedupGo] at hd
  | cons x xs ih =>
      intro seen d hd
      simp only [dedupGo] at hd
      by_cases hx : x.id ∈ seen
      · rw [if_pos hx] at hd
        have hne : ¬ (x.id == d.id) = true := by
          simp only [beq_iff_eq]
          intro hc
          rw [hc] at hx
          exact dedupGo_id_not_seen xs seen d hd hx
        have hxf : (x.id == d.id) = false := by simpa using hne
        simp only [List.find?, hxf]
        exact ih seen d hd
      · rw [if_neg hx] at hd
        rcases List.mem_cons.mp hd with rfl | hmem
        · simp [List.find?]
        · have hne : ¬ (x.id == d.id) = true := by
            simp only [beq_iff_eq]
            intro hc
            refine dedupGo_id_not_seen xs (x.id :: seen) d hmem ?_
            rw [← hc]
            exact List.mem_cons_self _ _
          have hxf : (x.id == d.id) = false := by simpa using hne
          simp only [List.find?, hxf]
          exact ih (x.id :: seen) d hmem

/-- The dedup output has pairwise distinct identifiers. -/
theorem dedupGo_pairwise (l : List RankedDoc) :
    ∀ (seen : List String), (dedupGo seen l).Pairwise (fun a b => a.id ≠ b.id) := by
  induction l with
  | nil => intro seen; simp [dedupGo]
  | cons x xs ih =>
      intro seen
      simp only [dedupGo]
      by_cases hx : x.id ∈ seen
      · rw [if_pos hx]
        exact ih seen
      · rw [if_neg hx]
        refine List.pairwise_cons.mpr ⟨?_, ih (x.id :: seen)⟩
        intro b hb hc
        refine dedupGo_id_not_seen xs (x.id :: seen) b hb ?_
        rw [← hc]
        exact List.mem_cons_self _ _

/-- C9: the retrieval phase of `semantic_search` merges the per-term
store results of the used terms (the first three), deduplicates by
identifier with the first occurrence winning, and returns at most
`top_k` documents in descending relevance order, ties keeping insertion
order (the filter at every fixed score is unchanged by the sort). -/
theorem c9_semantic_search_ranking (searchTerms : List String)
    (store : String → List RawDoc) (topK : Nat) :
    (semanticSearchDocs searchTerms store topK).length ≤ topK
    ∧ (semanticSearchDocs searchTerms store topK).Pairwise
        (fun a b => b.relevance_score ≤ a.relevance_score)
    ∧ (semanticSearchDocs searchTerms store topK).Pairwise (fun a b => a.id ≠ b.id)
    ∧ (∀ d ∈ semanticSearchDocs searchTerms store topK,
        (mergedDocs searchTerms store).find? (fun e => e.id == d.id) = some d)
    ∧ (∀ q : ℚ,
        (sortDesc (dedupGo [] (mergedDocs searchTerms store))).filter
            (fun x => decide (x.relevance_score = q))
          = (dedupGo [] (mergedDocs searchTerms store)).filter
              (fun x => decide (x.relevance_score = q))) := by
  refine ⟨?_, ?_, ?_, ?_, fun q => sortDesc_filter q _⟩
  · simp only [semanticSearchDocs]
    exact List.length_take_le _ _
  · exact List.Pairwise.sublist (List.take_sublist _ _) (sortDesc_sorted _)
  · refine List.Pairwise.sublist (List.take_sublist _ _) ?_
    exact ((sortDesc_perm _).pairwise_iff (fun h hc => h hc.symm)).mpr
      (dedupGo_pairwise _ [])
  · intro d hd
    have hd1 : d ∈ sortDesc (dedupGo [] (mergedDocs searchTerms store)) :=
      List.mem_of_mem_take hd
    exact dedupGo_find _ [] d ((sortDesc_perm _).mem_iff.mp hd1)

/-- C9 witness: a two-term store where the second term re-serves the
document with identifier "1" at a higher score: the duplicate is dropped
(first occurrence wins) and the result is ranked descending. -/
theorem c9_semantic_search_ranking_witness :
    (mergedDocs ["a", "b"]
        (fun t => if t = "a"
          then [⟨some "1", "c1", "t1", some 2⟩, ⟨some "2", "c2", "t2", some 5⟩]
          else [⟨some "1", "dup", "dup", some 9⟩])).find?
        (fun e => e.id == (⟨"2", "c2", "t2", 5⟩ : RankedDoc).id)
      = some ⟨"2", "c2", "t2", 5⟩ :=
  (c9_semantic_search_ranking ["a", "b"]
    (fun t => if t = "a"
      then [⟨some "1", "c1", "t1", some 2⟩, ⟨some "2", "c2", "t2", some 5⟩]
      else [⟨some "1", "dup", "dup", some 9⟩]) 5).2.2.2.1
    ⟨"2", "c2", "t2", 5⟩ (by decide)

end SynGen
